import Mathlib

/-!
Verification development for the Clyst marketplace heuristic scoring engine:
the AI-image detector (`ai_image_detector.py`) and the sustainability
classifier (`sustainability_classifier.py`).

The Python code is shallowly embedded: pure string/arithmetic logic is
translated directly; the parts that perform I/O (image download, EXIF
decoding, pixel extraction) are modelled as oracle parameters supplying the
result the corresponding call returned, while the surrounding control flow
(availability checks, short-circuits, weighted fusion) is embedded faithfully.
Python floats are modelled as rationals; `round(x, 2)` is modelled with
round-half-to-even as `pyRound2`.
-/

/-- A small regular-expression syntax covering exactly the constructs used by
the pattern lists in `ai_image_detector.py`: literals, `.`, `\d`, character
classes, concatenation, alternation and Kleene star. -/
inductive RE where
  | eps
  | fail
  | char (c : Char)
  | anyc
  | digit
  | cls (cs : List Char)
  | cat (a b : RE)
  | alt (a b : RE)
  | star (a : RE)
deriving DecidableEq, Repr

/-- Does the regex accept the empty string? -/
def reNull : RE → Bool
  | .eps => true
  | .fail => false
  | .char _ => false
  | .anyc => false
  | .digit => false
  | .cls _ => false
  | .cat a b => reNull a && reNull b
  | .alt a b => reNull a || reNull b
  | .star _ => true

/-- Brzozowski derivative of a regex with respect to one character.
`.` does not match a newline, as in Python's `re` default mode. -/
def reDeriv (r : RE) (c : Char) : RE :=
  match r with
  | .eps => .fail
  | .fail => .fail
  | .char a => if a = c then .eps else .fail
  | .anyc => if c = '\n' then .fail else .eps
  | .digit => if c.isDigit then .eps else .fail
  | .cls cs => if cs.contains c then .eps else .fail
  | .cat a b =>
      if reNull a then .alt (.cat (reDeriv a c) b) (reDeriv b c)
      else .cat (reDeriv a c) b
  | .alt a b => .alt (reDeriv a c) (reDeriv b c)
  | .star a => .cat (reDeriv a c) (.star a)

/-- Does some prefix of the character list match the regex? -/
def reMatchesAtStart : RE → List Char → Bool
  | r, [] => reNull r
  | r, c :: cs => reNull r || reMatchesAtStart (reDeriv r c) cs

/-- Scan every start position, as `re.search` does. -/
def reSearchAux : RE → List Char → Bool
  | r, [] => reNull r
  | r, c :: cs => reMatchesAtStart r (c :: cs) || reSearchAux r cs

/-- Embedding of `re.search(pattern, s) is not None`. -/
def reSearch (r : RE) (s : String) : Bool :=
  reSearchAux r s.data

/-- Literal string regex (the escaped-dot patterns are plain literals). -/
def rchars (s : String) : RE :=
  s.data.foldr (fun c acc => RE.cat (RE.char c) acc) RE.eps

/-- `r?` -/
def ropt (r : RE) : RE := RE.alt RE.eps r

/-- `r+` -/
def rplus (r : RE) : RE := RE.cat r (RE.star r)

/-- `\d+` -/
def rdigits : RE := rplus RE.digit

/-- `r{n}` -/
def rrep (r : RE) (n : Nat) : RE :=
  (List.range n).foldr (fun _ acc => RE.cat r acc) RE.eps

/-- Concatenation of a list of regexes. -/
def rcat (l : List RE) : RE := l.foldr RE.cat RE.eps

/-- `[_-]?` -/
def sepU : RE := ropt (RE.cls ['_', '-'])

/-- The characters of `[_\s-]` (Python `\s` is space, tab, newline, CR, VT, FF). -/
def wsSepChars : List Char := ['_', ' ', '\t', '\n', '\r', '\x0b', '\x0c', '-']

/-- `[_\s-]?` -/
def sepW : RE := ropt (RE.cls wsSepChars)

/-- `AI_SERVICE_PATTERNS` from `ai_image_detector.py`: each entry keeps the
source regex text (used in the detail strings) and its embedding. All entries
are literals (the `\.` escapes denote literal dots). -/
def AI_SERVICE_PATTERNS : List (String × RE) :=
  [("midjourney\\.com", rchars "midjourney.com"),
   ("openai\\.com", rchars "openai.com"),
   ("cdn\\.openai\\.com", rchars "cdn.openai.com"),
   ("stability\\.ai", rchars "stability.ai"),
   ("replicate\\.com", rchars "replicate.com"),
   ("playground\\.ai", rchars "playground.ai"),
   ("lexica\\.art", rchars "lexica.art"),
   ("dall-e", rchars "dall-e"),
   ("dalle", rchars "dalle"),
   ("stablediffusion", rchars "stablediffusion"),
   ("dreamstudio", rchars "dreamstudio"),
   ("nightcafe", rchars "nightcafe"),
   ("artbreeder", rchars "artbreeder"),
   ("craiyon", rchars "craiyon"),
   ("bluewillow", rchars "bluewillow"),
   ("discord\\.gg", rchars "discord.gg"),
   ("discordapp\\.com", rchars "discordapp.com"),
   ("discordapp\\.net", rchars "discordapp.net")]

/-- `AI_FILENAME_PATTERNS` from `ai_image_detector.py`. Note that in
`image[_\s-]?\d+[_\s-]?\d+[_\s-]?\d+.*pm|am` the `|` has lowest precedence,
exactly as in Python. -/
def AI_FILENAME_PATTERNS : List (String × RE) :=
  [("ai[_-]?generated", rcat [rchars "ai", sepU, rchars "generated"]),
   ("midjourney", rchars "midjourney"),
   ("dall[_-]?e", rcat [rchars "dall", sepU, rchars "e"]),
   ("stable[_-]?diffusion", rcat [rchars "stable", sepU, rchars "diffusion"]),
   ("ai[_-]?art", rcat [rchars "ai", sepU, rchars "art"]),
   ("generated[_-]?image", rcat [rchars "generated", sepU, rchars "image"]),
   ("synthetic", rchars "synthetic"),
   ("prompt[_-]?\\d+", rcat [rchars "prompt", sepU, rdigits]),
   ("seed[_-]?\\d+", rcat [rchars "seed", sepU, rdigits]),
   ("cfg[_-]?scale", rcat [rchars "cfg", sepU, rchars "scale"]),
   ("dreambooth", rchars "dreambooth"),
   ("lora[_-]?model", rcat [rchars "lora", sepU, rchars "model"]),
   ("chatgpt[_\\s-]?image", rcat [rchars "chatgpt", sepW, rchars "image"]),
   ("gpt[_-]?\\d+[_\\s-]?image", rcat [rchars "gpt", sepU, rdigits, sepW, rchars "image"]),
   ("claude[_\\s-]?image", rcat [rchars "claude", sepW, rchars "image"]),
   ("gemini[_\\s-]?image", rcat [rchars "gemini", sepW, rchars "image"]),
   ("copilot[_\\s-]?image", rcat [rchars "copilot", sepW, rchars "image"]),
   ("bing[_\\s-]?image[_\\s-]?creator",
     rcat [rchars "bing", sepW, rchars "image", sepW, rchars "creator"]),
   ("ai[_\\s-]?assistant", rcat [rchars "ai", sepW, rchars "assistant"]),
   ("image[_\\s-]?\\d+[_\\s-]?\\d+[_\\s-]?\\d+.*pm|am",
     RE.alt (rcat [rchars "image", sepW, rdigits, sepW, rdigits, sepW, rdigits,
                   RE.star RE.anyc, rchars "pm"])
            (rchars "am")),
   ("screenshot[_\\s-]?\\d{4}[_-]?\\d{2}[_-]?\\d{2}",
     rcat [rchars "screenshot", sepW, rrep RE.digit 4, sepU, rrep RE.digit 2,
           sepU, rrep RE.digit 2])]

/-- Embedding of Python `s.lower()` (ASCII case folding suffices here),
written over the character list so that it evaluates by kernel reduction. -/
def pyLower (s : String) : String := ⟨s.data.map Char.toLower⟩

/-- Is `n` a contiguous sublist of `h`? -/
def listInfix (n : List Char) : List Char → Bool
  | [] => n.isPrefixOf []
  | c :: cs => n.isPrefixOf (c :: cs) || listInfix n cs

/-- Embedding of Python's substring test `needle in hay`. -/
def pyIn (needle hay : String) : Bool := listInfix needle.data hay.data

/-- Embedding of Python `round(x, 2)` (round half to even) on rationals. -/
def pyRound2 (q : ℚ) : ℚ :=
  let x := q * 100
  let f : ℤ := Int.floor x
  let r : ℤ :=
    if x - f < 1 / 2 then f
    else if (1 : ℚ) / 2 < x - f then f + 1
    else if f % 2 = 0 then f else f + 1
  (r : ℚ) / 100

/-- The per-extractor result shape `{detected, score, method, details}`. -/
structure DetectionResult where
  detected : Bool
  score : ℚ
  method : String
  details : List String
deriving DecidableEq, Repr

/-- Detail line for a matching AI-service pattern. -/
def svcDetail (src : String) : String :=
  s!"URL contains AI service pattern: {src}"

/-- Detail line for a matching filename pattern. -/
def fnDetail (src : String) : String :=
  s!"Filename contains AI indicator: {src}"

/-- The `details` list accumulated by `check_url_patterns`: matching service
patterns first, then matching filename patterns, in source order. -/
def urlDetails (image_url : String) : List String :=
  let url_lower := pyLower image_url
  (AI_SERVICE_PATTERNS.filter (fun p => reSearch p.2 url_lower)).map
      (fun p => svcDetail p.1)
    ++ (AI_FILENAME_PATTERNS.filter (fun p => reSearch p.2 url_lower)).map
      (fun p => fnDetail p.1)

/-- Embedding of `check_url_patterns` (`ai_image_detector.py`, lines 169-205). -/
def check_url_patterns (image_url : String) : DetectionResult :=
  if image_url = "" then ⟨false, 0, "url_check", []⟩
  else
    let details := urlDetails image_url
    if details.isEmpty then ⟨false, 0, "url_check", []⟩
    else ⟨true, min 95 ((details.length : ℚ) * 30 + 50), "url_pattern_analysis", details⟩

/-- Library-availability flags (`PIL_AVAILABLE`, `NUMPY_AVAILABLE`), resolved
once at import time in the source. -/
structure Flags where
  pil : Bool
  numpy : Bool
deriving DecidableEq, Repr

/-- Result shape of `analyze_pixel_level_features`: a `DetectionResult` plus
the `analysis_breakdown` map of per-sub-analysis scores. -/
structure PixelResult where
  detected : Bool
  score : ℚ
  method : String
  details : List String
  breakdown : List (String × ℚ)
deriving DecidableEq, Repr

/-- Oracle supplying the outcome of the I/O-performing bodies of the three
downstream extractors (image download, EXIF decode, pixel statistics). The
control flow around these calls is embedded; the calls themselves depend on
the network and image bytes and are modelled as opaque functions of the URL. -/
structure ExtractorOracle where
  metadata : String → DetectionResult
  visual : String → DetectionResult
  pixel : String → PixelResult

/-- Embedding of `analyze_image_metadata` (lines 208-303): without PIL it
returns the fixed stub; otherwise the fetched/decoded result is the oracle's. -/
def analyze_image_metadata (fl : Flags) (o : ExtractorOracle) (image_url : String) :
    DetectionResult :=
  if fl.pil = false then
    ⟨false, 0, "metadata_check", ["PIL not available - metadata analysis skipped"]⟩
  else o.metadata image_url

/-- Embedding of `analyze_visual_patterns` (lines 306-396): without PIL or
NumPy it returns the fixed stub; otherwise the result is the oracle's. -/
def analyze_visual_patterns (fl : Flags) (o : ExtractorOracle) (image_url : String) :
    DetectionResult :=
  if (fl.pil && fl.numpy) = false then
    ⟨false, 0, "visual_check", ["PIL or NumPy not available - visual analysis skipped"]⟩
  else o.visual image_url

/-- Embedding of `analyze_pixel_level_features` (lines 804-913): without PIL
or NumPy it returns the fixed stub; otherwise the result is the oracle's. -/
def analyze_pixel_level_features (fl : Flags) (o : ExtractorOracle) (image_url : String) :
    PixelResult :=
  if (fl.pil && fl.numpy) = false then
    ⟨false, 0, "pixel_analysis", ["PIL or NumPy not available - pixel analysis skipped"], []⟩
  else o.pixel image_url

/-- The `all_details` map assembled by `detect_ai_image` on the combination
path. `analysis_summary` keeps the five numbers interpolated into the summary
string (combined, url, metadata, visual, pixel). -/
structure AllDetails where
  url_analysis : List String
  metadata_analysis : List String
  visual_analysis : List String
  pixel_analysis : List String
  url_score : ℚ
  metadata_score : ℚ
  visual_score : ℚ
  pixel_score : ℚ
  pixel_analysis_breakdown : Option (List (String × ℚ))
  confidence_level : String
  analysis_summary : Option (ℚ × ℚ × ℚ × ℚ × ℚ)
deriving DecidableEq, Repr

/-- The three shapes the `details` dict of `detect_ai_image` can take: the
no-image message, the short-circuit map (only `url_analysis`,
`confidence_level` and `primary_indicator`), or the full combination map. -/
inductive DetectDetails where
  | noImage (message : String)
  | shortCircuit (url_analysis : List String) (confidence_level : String)
      (primary_indicator : String)
  | full (d : AllDetails)
deriving DecidableEq, Repr

/-- The `CombinedVerdict` returned by `detect_ai_image`. -/
structure DetectResult where
  is_ai_generated : Bool
  confidence_score : ℚ
  detection_method : String
  details : DetectDetails
deriving DecidableEq, Repr

/-- The combination path of `detect_ai_image` (lines 950-1037), entered when
the URL check did not short-circuit. -/
def detectCombine (fl : Flags) (o : ExtractorOracle) (image_url : String)
    (url_result : DetectionResult) : DetectResult :=
  let metadata_result := analyze_image_metadata fl o image_url
  let visual_result : DetectionResult :=
    if fl.pil && fl.numpy then analyze_visual_patterns fl o image_url
    else ⟨false, 0, "", []⟩
  let pixel_result : PixelResult :=
    if fl.pil && fl.numpy then analyze_pixel_level_features fl o image_url
    else ⟨false, 0, "", [], []⟩
  let combined_score :=
    url_result.score * 0.25 + metadata_result.score * 0.20 +
      visual_result.score * 0.15 + pixel_result.score * 0.40
  let confidence : String :=
    if 70 ≤ combined_score then "high"
    else if 50 ≤ combined_score then "medium"
    else if 30 ≤ combined_score then "low"
    else "unlikely"
  let methods : List String :=
    (if url_result.detected then ["URL patterns"] else []) ++
    (if metadata_result.detected then ["metadata"] else []) ++
    (if pixel_result.detected then ["advanced pixel analysis"]
     else if visual_result.detected then ["visual patterns"] else [])
  let primary_method :=
    if methods.isEmpty then "heuristic analysis" else String.intercalate ", " methods
  let all_details : AllDetails :=
    { url_analysis := url_result.details
      metadata_analysis := metadata_result.details
      visual_analysis := visual_result.details
      pixel_analysis := pixel_result.details
      url_score := url_result.score
      metadata_score := metadata_result.score
      visual_score := visual_result.score
      pixel_score := pixel_result.score
      pixel_analysis_breakdown :=
        if pixel_result.breakdown.isEmpty then none else some pixel_result.breakdown
      confidence_level := confidence
      analysis_summary :=
        if 0 < pixel_result.score then
          some (combined_score, url_result.score, metadata_result.score,
                visual_result.score, pixel_result.score)
        else none }
  { is_ai_generated := decide (40 ≤ combined_score)
    confidence_score := pyRound2 combined_score
    detection_method := primary_method
    details := .full all_details }

/-- Embedding of `detect_ai_image` (lines 916-1037). The image reference is
an `Option String`; Python's `if not image_url` is true for `None` and `""`. -/
def detect_ai_image (fl : Flags) (o : ExtractorOracle) (image_url : Option String) :
    DetectResult :=
  match image_url with
  | none => ⟨false, 0, "no_image", .noImage "No image URL provided"⟩
  | some u =>
    if u = "" then ⟨false, 0, "no_image", .noImage "No image URL provided"⟩
    else
      let url_result := check_url_patterns u
      if url_result.detected = true ∧ 80 ≤ url_result.score then
        { is_ai_generated := true
          confidence_score := url_result.score
          detection_method := url_result.method
          details := .shortCircuit url_result.details "high" "AI service URL detected" }
      else detectCombine fl o u url_result

/-- Is the `details` field the full combination map? -/
def DetectDetails.isFull : DetectDetails → Bool
  | .full _ => true
  | _ => false

/-- The reported `url_score` (0 outside the combination path). -/
def DetectDetails.urlScore : DetectDetails → ℚ
  | .full d => d.url_score
  | _ => 0

/-- The reported `metadata_score` (0 outside the combination path). -/
def DetectDetails.metaScore : DetectDetails → ℚ
  | .full d => d.metadata_score
  | _ => 0

/-- The reported `visual_score` (0 outside the combination path). -/
def DetectDetails.visualScore : DetectDetails → ℚ
  | .full d => d.visual_score
  | _ => 0

/-- The reported `pixel_score` (0 outside the combination path). -/
def DetectDetails.pixelScore : DetectDetails → ℚ
  | .full d => d.pixel_score
  | _ => 0

/-- The reported `confidence_level`. -/
def DetectDetails.level : DetectDetails → String
  | .full d => d.confidence_level
  | .shortCircuit _ lv _ => lv
  | .noImage _ => ""

/-- `SUSTAINABLE_KEYWORDS` from `sustainability_classifier.py`, in dict
insertion order: (category name, keyword list, weight). -/
def SUSTAINABLE_KEYWORDS : List (String × List String × ℤ) :=
  [("high_score",
    ["handmade", "hand-made", "hand made", "organic", "recycled", "upcycled",
     "natural", "eco-friendly", "eco friendly", "biodegradable", "sustainable",
     "bamboo", "jute", "cotton", "clay", "ceramic", "pottery", "wood", "wooden",
     "artisan", "heritage", "traditional", "handcrafted", "hand-crafted",
     "eco", "green", "earth-friendly", "environmentally friendly"], 10),
   ("medium_score",
    ["reusable", "plant-based", "non-toxic", "renewable", "ethical",
     "fair-trade", "fair trade", "local", "locally made", "artisanal",
     "craft", "crafted", "homemade", "home-made", "natural fiber",
     "natural fibre", "biodegradable", "compostable", "vintage",
     "repurposed", "reclaimed", "salvaged"], 7),
   ("low_score",
    ["handwoven", "hand-woven", "hand woven", "textile", "fabric",
     "metal", "brass", "copper", "bronze", "terracotta", "terra-cotta",
     "stone", "marble", "leather", "silk", "wool", "linen"], 4),
   ("negative",
    ["plastic", "synthetic", "chemical", "mass-produced", "factory-made",
     "polyester", "acrylic", "nylon", "artificial"], -8)]

/-- The reason lines appended for one matching keyword: a positive line for
`high_score`/`medium_score` categories (weight ≥ 7), a cautionary line for
negative weights, nothing otherwise — the `if/elif` at lines 75-81. -/
def keywordReason (category keyword : String) (weight : ℤ) : List String :=
  if 7 ≤ weight then
    if category = "high_score" then
      [s!"Contains \x27{keyword}\x27 - strong sustainability indicator"]
    else if category = "medium_score" then
      [s!"Uses \x27{keyword}\x27 material/method"]
    else []
  else if weight < 0 then
    [s!"Contains \x27{keyword}\x27 - may not be sustainable"]
  else []

/-- One iteration of the keyword scan (lines 69-81), acting on the running
state (total_score, keywords_found, reasons). -/
def scanStep (text_lower : String) (st : ℤ × List String × List String)
    (p : String × String × ℤ) : ℤ × List String × List String :=
  if pyIn p.2.1 text_lower then
    (st.1 + p.2.2, st.2.1 ++ [p.2.1], st.2.2 ++ keywordReason p.1 p.2.1 p.2.2)
  else st

/-- Result shape of `analyze_text_sustainability`. -/
structure TextResult where
  score : ℚ
  keywords_found : List String
  reasons : List String
deriving DecidableEq, Repr

/-- Embedding of `analyze_text_sustainability` (lines 49-92). `list(set(...))`
is modelled by `List.dedup` (Python set order is unspecified). -/
def analyze_text_sustainability (text : String) : TextResult :=
  if text = "" then ⟨0, [], []⟩
  else
    let text_lower := pyLower text
    let st :=
      SUSTAINABLE_KEYWORDS.foldl
        (fun st cd => cd.2.1.foldl (fun st kw => scanStep text_lower st (cd.1, kw, cd.2.2)) st)
        (((0 : ℤ), ([] : List String), ([] : List String)))
    let normalized_score : ℚ := min 100 (max 0 ((st.1 : ℚ) / 150 * 100 + 30))
    ⟨pyRound2 normalized_score, st.2.1.dedup, st.2.2.take 5⟩

/-- All (category, keyword, weight) triples in scan order. -/
def flatKeywordTriples : List (String × String × ℤ) :=
  SUSTAINABLE_KEYWORDS.flatMap (fun cd => cd.2.1.map (fun kw => (cd.1, kw, cd.2.2)))

/-- The triples whose keyword occurs in the lower-cased text. Each
(category, keyword) pair appears at most once, however many times the keyword
occurs in the text. -/
def matchedTriples (text_lower : String) : List (String × String × ℤ) :=
  flatKeywordTriples.filter (fun p => pyIn p.2.1 text_lower)

/-- The `total_score` of the scan: each matched (category, keyword) pair
contributes its weight exactly once. -/
def sumWeights (text : String) : ℤ :=
  ((matchedTriples (pyLower text)).map (fun p => p.2.2)).sum

/-- The keywords appended by the scan, in scan order, before deduplication. -/
def matchedKeywords (text : String) : List String :=
  (matchedTriples (pyLower text)).map (fun p => p.2.1)

/-- The reason lines produced by the scan, in scan order, before the cap. -/
def reasonEntries (text : String) : List String :=
  (matchedTriples (pyLower text)).flatMap (fun p => keywordReason p.1 p.2.1 p.2.2)

/-- Result shape of `analyze_image_sustainability`. -/
structure ImageSustainResult where
  score : ℚ
  confidence : ℚ
  method : String
deriving DecidableEq, Repr

/-- Embedding of `analyze_image_sustainability` (lines 95-123): a constant
result regardless of the input. -/
def analyze_image_sustainability (_image_url : String) : ImageSustainResult :=
  ⟨55, 0.6, "heuristic_artisan_base"⟩

/-- `combined_text` of `classify_product_sustainability` (line 143), with
Python truthiness of strings. -/
def combinedText (title description : String) : String :=
  if title ≠ "" ∧ description ≠ "" then title ++ " " ++ description
  else if title ≠ "" then title
  else if description ≠ "" then description
  else ""

/-- Result shape of `classify_product_sustainability`. -/
structure SustainResult where
  is_sustainable : Bool
  score : ℚ
  text_score : ℚ
  image_score : ℚ
  reasons : List String
  keywords_found : List String
deriving DecidableEq, Repr

/-- Embedding of `classify_product_sustainability` (lines 126-184). The
image reference is an `Option String`; `if image_url:` is false for `None`
and for the empty string. -/
def classify_product_sustainability (title description : String)
    (image_url : Option String) : SustainResult :=
  let text_result := analyze_text_sustainability (combinedText title description)
  let text_score := text_result.score
  let image_score : ℚ :=
    match image_url with
    | some iu => if iu ≠ "" then (analyze_image_sustainability iu).score else 55
    | none => 55
  let final_score := text_score * 0.7 + image_score * 0.3
  let is_sustainable := decide (60 ≤ final_score)
  let reasons :=
    -- the decorative check-mark prefix of the two positive lines is dropped;
    -- both `insert(0, ...)` calls are modelled, in insertion order
    if is_sustainable then
      ["Classified as sustainable handcrafted product"] ++
      (if text_result.keywords_found.isEmpty then []
       else ["Sustainable materials/methods detected: " ++
             String.intercalate ", " (text_result.keywords_found.take 3)]) ++
      text_result.reasons
    else "Product may not meet sustainability criteria" :: text_result.reasons
  let reasons :=
    reasons ++ (if 50 ≤ final_score then ["Handcrafted artisan product from Clyst marketplace"] else [])
  { is_sustainable := is_sustainable
    score := pyRound2 final_score
    text_score := pyRound2 text_score
    image_score := pyRound2 image_score
    reasons := reasons.take 6
    keywords_found := text_result.keywords_found.take 10 }

/-- A decoded RGB image array: dimensions plus a pixel function
(row, column, channel) → value. -/
structure ImageArr where
  h : Nat
  w : Nat
  pix : Nat → Nat → Nat → ℚ

/-- Oracle for the OpenCV-gated computations inside
`analyze_gan_fingerprints` (`filter2D` box-blur residual per kernel size,
bilateral-filter residual, HSV saturation mean/std). They are consulted only
when `cv2` is available. -/
structure Cv2Oracle where
  checkerboardMeanDiff : Nat → ℚ
  bilateralMeanDiff : ℚ
  satMean : ℚ
  satStd : ℚ

/-- Embedding of `np.var` on a flat list of values; `np.var([])` is NaN,
which fails every comparison made on it downstream, like 0 here. -/
def npVar (l : List ℚ) : ℚ :=
  if l.length = 0 then 0
  else
    let m := l.sum / (l.length : ℚ)
    ((l.map (fun x => (x - m) ^ 2)).sum) / (l.length : ℚ)

/-- The flattened 32×32×3 patch `img_array[y:y+32, x:x+32]` sampled by
`analyze_gan_fingerprints` (patch_size = 32). -/
def ganPatch (img : ImageArr) (y x : Nat) : List ℚ :=
  (List.range 32).flatMap (fun dy =>
    (List.range 32).flatMap (fun dx =>
      [img.pix (y + dy) (x + dx) 0, img.pix (y + dy) (x + dx) 1,
       img.pix (y + dy) (x + dx) 2]))

/-- Embedding of `analyze_gan_fingerprints` (lines 716-801), returning
(score, details). `draws` is the stream of (y, x) patch corners obtained from
the two `np.random.randint` calls per sample — the module-global RNG state the
function consumes. The image is a 3-channel array, so the `len(shape) == 3`
test of step 4 holds; its HSV branch still needs cv2. When `32 ≥ h` or
`32 ≥ w` while `num_samples > 0`, `np.random.randint(0, h - 32)` raises
`ValueError`, which the function-level `except` turns into a warning detail,
skipping the remaining steps. -/
def analyze_gan_fingerprints (cv2Avail : Bool) (o : Cv2Oracle) (img : ImageArr)
    (draws : List (Nat × Nat)) : ℚ × List String :=
  -- 1. checkerboard artifacts (cv2 only): kernel sizes 2 then 4, break on hit
  let st1 : ℚ × List String :=
    if cv2Avail then
      if 15 < o.checkerboardMeanDiff 2 then
        (20, ["Checkerboard artifact detected (2x2)"])
      else if 15 < o.checkerboardMeanDiff 4 then
        (20, ["Checkerboard artifact detected (4x4)"])
      else (0, [])
    else (0, [])
  -- 2. local-consistency patch sampling
  let num_samples := min 20 ((img.h / 32) * (img.w / 32))
  if num_samples ≠ 0 ∧ (img.h ≤ 32 ∨ img.w ≤ 32) then
    (st1.1, st1.2 ++ ["GAN fingerprint analysis warning: low >= high"])
  else
    let patch_variances := (draws.take num_samples).map (fun p => npVar (ganPatch img p.1 p.2))
    let st2 :=
      if 5000 < npVar patch_variances then
        (st1.1 + 15, st1.2 ++ ["Inconsistent local texture (GAN characteristic)"])
      else st1
    -- 3. blob artifacts via bilateral-filter residual (cv2 only)
    let st3 :=
      if cv2Avail then
        if o.bilateralMeanDiff < 10 then
          (st2.1 + 12, st2.2 ++ ["Unnatural smoothness (blob artifacts)"])
        else st2
      else st2
    -- 4. saturation analysis (3-channel image; hsv is None without cv2)
    let st4 :=
      if cv2Avail then
        if 180 < o.satMean ∧ o.satStd < 30 then
          (st3.1 + 15, st3.2 ++ ["Unnaturally high uniform saturation"])
        else if o.satMean < 50 ∧ o.satStd < 20 then
          (st3.1 + 10, st3.2 ++ ["Unnaturally low saturation"])
        else st3
      else st3
    st4

/-- The 34×65 image used to exhibit the RNG dependence of the patch-sampling
test: columns 0-31 are black, the rest white, on all three channels. -/
def ganCexImg : ImageArr :=
  ⟨34, 65, fun _ x _ => if x < 32 then 0 else 255⟩

/-- A cv2 oracle whose values are never consulted when cv2 is unavailable. -/
def ganCexOracle : Cv2Oracle := ⟨fun _ => 0, 0, 0, 0⟩

/-- The weighted combination `0.25*url + 0.20*metadata + 0.15*visual +
0.40*pixel` of the per-extractor scores reported in a verdict's details. -/
def weightedOf (r : DetectResult) : ℚ :=
  0.25 * r.details.urlScore + 0.20 * r.details.metaScore +
    0.15 * r.details.visualScore + 0.40 * r.details.pixelScore

/-- A fixed oracle used to instantiate theorems at concrete inputs. -/
def witnessOracle : ExtractorOracle :=
  { metadata := fun _ => ⟨false, 10, "metadata_check", []⟩
    visual := fun _ => ⟨false, 20, "visual_check", []⟩
    pixel := fun _ => ⟨false, 30, "advanced_pixel_analysis", [], []⟩ }

/-! ### Helper lemmas -/

lemma check_url_patterns_of_empty_details {u : String} (hne : u ≠ "")
    (h : urlDetails u = []) :
    check_url_patterns u = ⟨false, 0, "url_check", []⟩ := by
  unfold check_url_patterns
  rw [if_neg hne]
  simp [h]

lemma check_url_patterns_of_ne_empty_details {u : String} (hne : u ≠ "")
    (h : urlDetails u ≠ []) :
    check_url_patterns u =
      ⟨true, min 95 (((urlDetails u).length : ℚ) * 30 + 50), "url_pattern_analysis",
        urlDetails u⟩ := by
  unfold check_url_patterns
  rw [if_neg hne]
  simp [h]

lemma check_url_patterns_empty : check_url_patterns "" = ⟨false, 0, "url_check", []⟩ := by
  rfl

/-- A nonempty details list yields a score between 80 and 95. -/
lemma url_score_of_ne_empty_details {u : String} (hne : u ≠ "")
    (h : urlDetails u ≠ []) :
    80 ≤ (check_url_patterns u).score ∧ (check_url_patterns u).score ≤ 95 := by
  rw [check_url_patterns_of_ne_empty_details hne h]
  have hlen : 1 ≤ (urlDetails u).length := List.length_pos.mpr h
  have hq : (1 : ℚ) ≤ ((urlDetails u).length : ℚ) := by exact_mod_cast hlen
  constructor
  · exact le_min (by norm_num) (by linarith)
  · exact min_le_left _ _

/-- No AI-service pattern accepts the empty string. -/
lemma service_patterns_not_null :
    ∀ p ∈ AI_SERVICE_PATTERNS, reNull p.2 = false := by decide

lemma detectCombine_isFull (fl : Flags) (o : ExtractorOracle) (u : String)
    (r : DetectionResult) :
    (detectCombine fl o u r).details.isFull = true := rfl

/-- The combination path reports exactly the extractor scores in `details`. -/
lemma detectCombine_scores (fl : Flags) (o : ExtractorOracle) (u : String)
    (r : DetectionResult) :
    (detectCombine fl o u r).details.urlScore = r.score ∧
    (detectCombine fl o u r).details.metaScore = (analyze_image_metadata fl o u).score ∧
    (detectCombine fl o u r).details.visualScore =
      (if fl.pil && fl.numpy then (analyze_visual_patterns fl o u).score else 0) ∧
    (detectCombine fl o u r).details.pixelScore =
      (if fl.pil && fl.numpy then (analyze_pixel_level_features fl o u).score else 0) := by
  refine ⟨rfl, rfl, ?_, ?_⟩ <;> cases hb : fl.pil && fl.numpy <;>
    simp only [detectCombine, hb] <;> rfl

/-- The unrounded weighted combination computed on the combination path. -/
def combineRaw (fl : Flags) (o : ExtractorOracle) (u : String) (r : DetectionResult) : ℚ :=
  r.score * 0.25 + (analyze_image_metadata fl o u).score * 0.20 +
    (if fl.pil && fl.numpy then (analyze_visual_patterns fl o u).score else 0) * 0.15 +
    (if fl.pil && fl.numpy then (analyze_pixel_level_features fl o u).score else 0) * 0.40

lemma detectCombine_confidence (fl : Flags) (o : ExtractorOracle) (u : String)
    (r : DetectionResult) :
    (detectCombine fl o u r).confidence_score = pyRound2 (combineRaw fl o u r) := by
  cases hb : fl.pil && fl.numpy <;>
    simp only [detectCombine, combineRaw, hb] <;> rfl

lemma detectCombine_is_ai (fl : Flags) (o : ExtractorOracle) (u : String)
    (r : DetectionResult) :
    (detectCombine fl o u r).is_ai_generated = decide (40 ≤ combineRaw fl o u r) := by
  cases hb : fl.pil && fl.numpy <;>
    simp only [detectCombine, combineRaw, hb] <;> rfl

lemma detectCombine_level (fl : Flags) (o : ExtractorOracle) (u : String)
    (r : DetectionResult) :
    (detectCombine fl o u r).details.level =
      (if 70 ≤ combineRaw fl o u r then "high"
       else if 50 ≤ combineRaw fl o u r then "medium"
       else if 30 ≤ combineRaw fl o u r then "low"
       else "unlikely") := by
  cases hb : fl.pil && fl.numpy <;>
    simp only [detectCombine, combineRaw, hb] <;> rfl

/-- Reduction of `detect_ai_image` to the combination path. -/
lemma detect_ai_image_combine {u : String} (fl : Flags) (o : ExtractorOracle)
    (hne : u ≠ "")
    (hsc : ¬((check_url_patterns u).detected = true ∧ 80 ≤ (check_url_patterns u).score)) :
    detect_ai_image fl o (some u) = detectCombine fl o u (check_url_patterns u) := by
  simp only [detect_ai_image]
  rw [if_neg hne, if_neg hsc]

/-- The nested category/keyword loop equals a single fold over the flattened
triple list (dict iteration order is insertion order). -/
lemma nested_scan_eq_flat (tl : String) (st : ℤ × List String × List String) :
    SUSTAINABLE_KEYWORDS.foldl
        (fun st cd => cd.2.1.foldl (fun st kw => scanStep tl st (cd.1, kw, cd.2.2)) st) st
      = flatKeywordTriples.foldl (scanStep tl) st := rfl

/-- Closed form of the scan fold: total is the sum of matched weights (one
per matched triple), keywords and reasons are the matched projections. -/
lemma foldl_scanStep_closed (tl : String) (l : List (String × String × ℤ))
    (st : ℤ × List String × List String) :
    l.foldl (scanStep tl) st =
      (st.1 + ((l.filter (fun p => pyIn p.2.1 tl)).map (fun p => p.2.2)).sum,
       st.2.1 ++ (l.filter (fun p => pyIn p.2.1 tl)).map (fun p => p.2.1),
       st.2.2 ++ (l.filter (fun p => pyIn p.2.1 tl)).flatMap
         (fun p => keywordReason p.1 p.2.1 p.2.2)) := by
  induction l generalizing st with
  | nil => simp
  | cons a as ih =>
    simp only [List.foldl_cons, List.filter_cons]
    cases hm : pyIn a.2.1 tl with
    | false =>
      simp only [scanStep, hm, Bool.false_eq_true, if_false, cond_false, ih]
    | true =>
      simp only [scanStep, hm, if_true, cond_true, ih, List.map_cons, List.sum_cons,
        List.flatMap_cons, List.append_assoc, add_assoc, List.singleton_append,
        List.cons_append, List.nil_append]

/-- Closed form of `analyze_text_sustainability` on nonempty text. -/
lemma analyze_text_closed {t : String} (h : t ≠ "") :
    analyze_text_sustainability t =
      ⟨pyRound2 (min 100 (max 0 ((sumWeights t : ℚ) / 150 * 100 + 30))),
       (matchedKeywords t).dedup, (reasonEntries t).take 5⟩ := by
  simp only [analyze_text_sustainability, if_neg h]
  rw [nested_scan_eq_flat, foldl_scanStep_closed]
  simp [sumWeights, matchedKeywords, reasonEntries, matchedTriples]

/-- Sum of a constant list. -/
lemma sum_of_const {l : List ℚ} {c : ℚ} (h : ∀ v ∈ l, v = c) :
    l.sum = (l.length : ℚ) * c := by
  induction l with
  | nil => simp
  | cons x xs ih =>
    have hx : x = c := h x (List.mem_cons_self x xs)
    have hxs := ih (fun v hv => h v (List.mem_cons_of_mem x hv))
    simp only [List.sum_cons, hxs, hx, List.length_cons]
    push_cast
    ring

/-- `npVar` of a constant list is zero. -/
lemma npVar_const {l : List ℚ} {c : ℚ} (h : ∀ v ∈ l, v = c) : npVar l = 0 := by
  unfold npVar
  rcases Nat.eq_zero_or_pos l.length with h0 | hpos
  · simp [h0]
  · have hne : l.length ≠ 0 := Nat.pos_iff_ne_zero.mp hpos
    have hql : ((l.length : ℚ)) ≠ 0 := Nat.cast_ne_zero.mpr hne
    rw [if_neg hne]
    have hmean : l.sum / (l.length : ℚ) = c := by
      rw [sum_of_const h]; field_simp
    rw [hmean]
    have hmap : l.map (fun x => (x - c) ^ 2) = l.map (fun _ => 0) := by
      apply List.map_congr_left
      intro v hv
      rw [h v hv]; ring
    show (List.map (fun x => (x - c) ^ 2) l).sum / (l.length : ℚ) = 0
    rw [hmap]
    simp

/-- Every entry of the (0,0) corner patch of the counterexample image is 0. -/
lemma ganPatch_cex_left : ∀ v ∈ ganPatch ganCexImg 0 0, v = 0 := by
  intro v hv
  simp only [ganPatch, List.mem_flatMap, List.mem_range] at hv
  obtain ⟨dy, _, dx, hdx, hv⟩ := hv
  have hlt : 0 + dx < 32 := by omega
  simp only [ganCexImg, hlt, if_pos] at hv
  simpa using hv

/-- `npVar` of the all-black corner patch is 0. -/
lemma npVar_cex_left : npVar (ganPatch ganCexImg 0 0) = 0 :=
  npVar_const ganPatch_cex_left

lemma npVar_eq {l : List ℚ} (h : l.length ≠ 0) :
    npVar l = (l.map (fun x => (x - l.sum / (l.length : ℚ)) ^ 2)).sum / (l.length : ℚ) := by
  unfold npVar
  rw [if_neg h]

/-- Duplicating a list `n` times leaves `npVar` unchanged. -/
lemma npVar_flatten_replicate {n : ℕ} (hn : n ≠ 0) {l : List ℚ} (hl : l.length ≠ 0) :
    npVar ((List.replicate n l).flatten) = npVar l := by
  have hqn : (n : ℚ) ≠ 0 := Nat.cast_ne_zero.mpr hn
  have hql : ((l.length : ℚ)) ≠ 0 := Nat.cast_ne_zero.mpr hl
  have hlen : ((List.replicate n l).flatten).length = n * l.length := by
    rw [List.length_flatten]
    simp [List.map_replicate, List.sum_replicate, smul_eq_mul]
  have hsum : ((List.replicate n l).flatten).sum = (n : ℚ) * l.sum := by
    rw [List.sum_flatten]
    simp [List.map_replicate, List.sum_replicate, nsmul_eq_mul]
  have hlen0 : ((List.replicate n l).flatten).length ≠ 0 := by
    rw [hlen]; exact Nat.mul_ne_zero hn hl
  rw [npVar_eq hlen0, npVar_eq hl]
  simp only [hsum, hlen, List.map_flatten, List.map_replicate, List.sum_flatten,
    List.sum_replicate, nsmul_eq_mul, Nat.cast_mul]
  rw [mul_div_mul_left _ _ hqn]
  simp only [mul_div_mul_left _ _ hqn]

/-- Variance of a half-and-half two-valued list. -/
lemma npVar_replicate_append (a b : ℚ) {k : ℕ} (hk : k ≠ 0) :
    npVar (List.replicate k a ++ List.replicate k b) = ((a - b) / 2) ^ 2 := by
  have hqk : (k : ℚ) ≠ 0 := Nat.cast_ne_zero.mpr hk
  have hlen : (List.replicate k a ++ List.replicate k b).length = 2 * k := by
    simp; ring
  have hlen0 : (List.replicate k a ++ List.replicate k b).length ≠ 0 := by
    rw [hlen]; positivity
  have hsum : (List.replicate k a ++ List.replicate k b).sum = (k : ℚ) * (a + b) := by
    simp [List.sum_replicate, nsmul_eq_mul]; ring
  rw [npVar_eq hlen0]
  have hmean : (List.replicate k a ++ List.replicate k b).sum /
      ((List.replicate k a ++ List.replicate k b).length : ℚ) = (a + b) / 2 := by
    rw [hsum, hlen]
    push_cast
    field_simp
    ring
  simp only [hmean, List.map_append, List.map_replicate, List.sum_append,
    List.sum_replicate, nsmul_eq_mul, hlen]
  push_cast
  field_simp
  ring

/-- The (0,16) patch of the counterexample image: each of its 32 rows is 48
black values followed by 48 white values. -/
lemma ganPatch_cex_right :
    ganPatch ganCexImg 0 16 =
      (List.replicate 32 (List.replicate 48 (0 : ℚ) ++ List.replicate 48 255)).flatten := by
  have hrow : ∀ dy : ℕ,
      (List.range 32).flatMap (fun dx =>
        [ganCexImg.pix (0 + dy) (16 + dx) 0, ganCexImg.pix (0 + dy) (16 + dx) 1,
         ganCexImg.pix (0 + dy) (16 + dx) 2])
        = List.replicate 48 (0 : ℚ) ++ List.replicate 48 255 := by
    intro dy
    show (List.range 32).flatMap (fun dx =>
        [if 16 + dx < 32 then (0 : ℚ) else 255, if 16 + dx < 32 then (0 : ℚ) else 255,
         if 16 + dx < 32 then (0 : ℚ) else 255])
        = List.replicate 48 (0 : ℚ) ++ List.replicate 48 255
    decide
  unfold ganPatch
  rw [List.flatMap_congr (fun dy _ => hrow dy), List.flatMap, List.map_const',
    List.length_range]

/-- `npVar` of the (0,16) patch: half black, half white. -/
lemma npVar_cex_right : npVar (ganPatch ganCexImg 0 16) = 65025 / 4 := by
  rw [ganPatch_cex_right, npVar_flatten_replicate (by norm_num) (by simp),
    npVar_replicate_append (0 : ℚ) 255 (by norm_num)]
  norm_num

/-- Running the sampler with both patches at the black corner scores 0. -/
lemma gan_cex_run1 :
    (analyze_gan_fingerprints false ganCexOracle ganCexImg [(0, 0), (0, 0)]).1 = 0 := by
  have h00 : npVar [(0 : ℚ), 0] = 0 := npVar_const (by intro v hv; simpa using hv)
  simp only [analyze_gan_fingerprints,
    show ganCexImg.h = 34 from rfl, show ganCexImg.w = 65 from rfl]
  norm_num [npVar_cex_left, h00]

/-- Running the sampler with one straddling patch scores 15. -/
lemma gan_cex_run2 :
    (analyze_gan_fingerprints false ganCexOracle ganCexImg [(0, 0), (0, 16)]).1 = 15 := by
  have h2 : (5000 : ℚ) < npVar [(0 : ℚ), 65025 / 4] := by
    rw [npVar_eq (by simp)]
    norm_num
  simp only [analyze_gan_fingerprints,
    show ganCexImg.h = 34 from rfl, show ganCexImg.w = 65 from rfl]
  norm_num [npVar_cex_left, npVar_cex_right, h2]

/-- The image reference never changes the sustainability verdict, because the
image extractor is the constant 55. -/
lemma classify_image_agnostic (title description : String) (image_url : Option String) :
    classify_product_sustainability title description image_url =
      classify_product_sustainability title description none := by
  cases image_url with
  | none => rfl
  | some s =>
    by_cases h : s = ""
    · subst h; rfl
    · simp only [classify_product_sustainability, analyze_image_sustainability, h,
        ne_eq, not_false_eq_true, if_true]

/-! ### Claim theorems -/

/-- Claim C4: for an empty or `None` image reference, `detect_ai_image`
returns exactly `is_ai_generated=false, confidence_score=0.0,
detection_method="no_image"`, independent of the extractor oracles (no
extractor is consulted). -/
theorem C4_no_image_short_circuit (fl : Flags) (o : ExtractorOracle) (iu : Option String)
    (h : iu = none ∨ iu = some "") :
    detect_ai_image fl o iu =
      ⟨false, 0, "no_image", .noImage "No image URL provided"⟩ := by
  rcases h with h | h <;> subst h <;> rfl

/-- Witness for C4 at the `none` input. -/
theorem C4_witness :
    detect_ai_image ⟨true, true⟩ witnessOracle none =
      ⟨false, 0, "no_image", .noImage "No image URL provided"⟩ :=
  C4_no_image_short_circuit ⟨true, true⟩ witnessOracle none (Or.inl rfl)

/-- Claim C5: `classify_product_sustainability` combines
`0.7×text + 0.3×image` where the image score is the constant baseline 55
whether or not an image reference is supplied (`analyze_image_sustainability`
returns 55 regardless of input), decides sustainability at threshold 60 on
the unrounded combination, and returns at most 6 reasons and at most 10
keywords. -/
theorem C5_weighted_sustainability (title description : String) (image_url : Option String) :
    (∀ s, (analyze_image_sustainability s).score = 55) ∧
    (classify_product_sustainability title description image_url).image_score = 55 ∧
    (classify_product_sustainability title description image_url).score =
      pyRound2 (0.7 * (analyze_text_sustainability (combinedText title description)).score
        + 0.3 * 55) ∧
    ((classify_product_sustainability title description image_url).is_sustainable = true ↔
      60 ≤ 0.7 * (analyze_text_sustainability (combinedText title description)).score
        + 0.3 * 55) ∧
    (classify_product_sustainability title description image_url).reasons.length ≤ 6 ∧
    (classify_product_sustainability title description image_url).keywords_found.length ≤ 10 := by
  rw [classify_image_agnostic]
  refine ⟨fun _ => rfl, ?_, ?_, ?_, ?_, ?_⟩ <;>
    simp only [classify_product_sustainability]
  · norm_num [pyRound2]
  · congr 1
    ring
  · rw [decide_eq_true_eq]
    constructor <;> intro h <;> linarith
  · exact le_trans (List.length_take_le _ _) (by norm_num)
  · exact le_trans (List.length_take_le _ _) (by norm_num)

/-- Claim C10: the bamboo-basket example classifies as sustainable with a
final score of at least 60. -/
theorem C10_bamboo_basket :
    (classify_product_sustainability "Handmade Bamboo Basket"
      "Eco-friendly handwoven bamboo basket made by local artisans using traditional methods"
      none).is_sustainable = true ∧
    60 ≤ (classify_product_sustainability "Handmade Bamboo Basket"
      "Eco-friendly handwoven bamboo basket made by local artisans using traditional methods"
      none).score := by
  have hT : combinedText "Handmade Bamboo Basket"
      "Eco-friendly handwoven bamboo basket made by local artisans using traditional methods"
      = "Handmade Bamboo Basket Eco-friendly handwoven bamboo basket made by local artisans using traditional methods" := by
    decide
  have hsw : sumWeights "Handmade Bamboo Basket Eco-friendly handwoven bamboo basket made by local artisans using traditional methods" = 71 := by
    decide
  have hts : (analyze_text_sustainability "Handmade Bamboo Basket Eco-friendly handwoven bamboo basket made by local artisans using traditional methods").score = 7733 / 100 := by
    rw [analyze_text_closed (by decide)]
    show pyRound2 _ = _
    rw [hsw]
    norm_num [pyRound2]
  constructor <;> simp only [classify_product_sustainability, hT, hts] <;> norm_num [pyRound2]

/-- Counterexample to claim C3 as stated: on the text "reusable" the matched
weights sum to 7, but the returned score is the 2-decimal rounding 34.67, not
the exact clamp value `7/150*100 + 30 = 104/3`. -/
theorem C3_counterexample :
    sumWeights "reusable" = 7 ∧
    (analyze_text_sustainability "reusable").score ≠
      min 100 (max 0 ((7 : ℚ) / 150 * 100 + 30)) := by
  refine ⟨by decide, ?_⟩
  rw [analyze_text_closed (by decide)]
  show pyRound2 _ ≠ _
  rw [show sumWeights "reusable" = 7 from by decide]
  norm_num [pyRound2]

/-- Claim C3 (amended): for nonempty text the score is
`clamp(0,100, total/150×100+30)` *rounded to 2 decimals*, where total sums
the weights of the matched (category, keyword) pairs; the reasons list is the
scan-order reason entries capped at 5, and a reason entry exists only for
weight magnitude ≥ 7; empty text yields score 0 with empty lists. -/
theorem C3_amended_normalization (t : String) :
    (t = "" → analyze_text_sustainability t = ⟨0, [], []⟩) ∧
    (t ≠ "" →
      (analyze_text_sustainability t).score =
        pyRound2 (min 100 (max 0 ((sumWeights t : ℚ) / 150 * 100 + 30))) ∧
      (analyze_text_sustainability t).reasons = (reasonEntries t).take 5) ∧
    (∀ p ∈ flatKeywordTriples, keywordReason p.1 p.2.1 p.2.2 ≠ [] → 7 ≤ |p.2.2|) := by
  refine ⟨?_, ?_, ?_⟩
  · intro h; subst h; rfl
  · intro h
    rw [analyze_text_closed h]
    exact ⟨rfl, rfl⟩
  · decide

/-- Witness for C3 (amended) at the text "reusable". -/
theorem C3_amended_witness :
    (analyze_text_sustainability "reusable").score =
      pyRound2 (min 100 (max 0 ((sumWeights "reusable" : ℚ) / 150 * 100 + 30))) ∧
    (analyze_text_sustainability "reusable").reasons =
      (reasonEntries "reusable").take 5 :=
  (C3_amended_normalization "reusable").2.1 (by decide)

/-- Counterexample to claim C6 as stated: "bamboo bamboo" contains the same
keyword twice, yet the analysis result is identical to that of "bamboo" —
the weight is counted once per matched keyword, not once per occurrence, so
the score is not the one a per-occurrence total of 20 would give. -/
theorem C6_counterexample :
    analyze_text_sustainability "bamboo bamboo" = analyze_text_sustainability "bamboo" ∧
    (analyze_text_sustainability "bamboo bamboo").score ≠ (20 : ℚ) / 150 * 100 + 30 ∧
    (analyze_text_sustainability "bamboo bamboo").score ≠
      pyRound2 (min 100 (max 0 ((20 : ℚ) / 150 * 100 + 30))) := by
  refine ⟨?_, ?_, ?_⟩
  · rw [analyze_text_closed (by decide), analyze_text_closed (by decide),
      show sumWeights "bamboo bamboo" = sumWeights "bamboo" from by decide,
      show matchedKeywords "bamboo bamboo" = matchedKeywords "bamboo" from by decide,
      show reasonEntries "bamboo bamboo" = reasonEntries "bamboo" from by decide]
  · rw [analyze_text_closed (by decide)]
    show pyRound2 _ ≠ _
    rw [show sumWeights "bamboo bamboo" = 10 from by decide]
    norm_num [pyRound2]
  · rw [analyze_text_closed (by decide)]
    show pyRound2 _ ≠ _
    rw [show sumWeights "bamboo bamboo" = 10 from by decide]
    norm_num [pyRound2]

/-- Claim C6 (amended): duplicated keywords are reported once
(`keywords_found` is deduplicated and has no duplicates), and each matched
(category, keyword) pair contributes its weight exactly once to the total
regardless of how many times the keyword occurs in the text. -/
theorem C6_amended_dedup_scoring (t : String) (h : t ≠ "") :
    (analyze_text_sustainability t).keywords_found = (matchedKeywords t).dedup ∧
    (analyze_text_sustainability t).keywords_found.Nodup ∧
    (analyze_text_sustainability t).score =
      pyRound2 (min 100 (max 0 ((sumWeights t : ℚ) / 150 * 100 + 30))) := by
  rw [analyze_text_closed h]
  exact ⟨rfl, List.nodup_dedup _, rfl⟩

/-- Witness for C6 (amended) at the duplicated text "bamboo bamboo". -/
theorem C6_amended_witness :
    (analyze_text_sustainability "bamboo bamboo").keywords_found =
      (matchedKeywords "bamboo bamboo").dedup ∧
    (analyze_text_sustainability "bamboo bamboo").keywords_found.Nodup ∧
    (analyze_text_sustainability "bamboo bamboo").score =
      pyRound2 (min 100 (max 0 ((sumWeights "bamboo bamboo" : ℚ) / 150 * 100 + 30))) :=
  C6_amended_dedup_scoring "bamboo bamboo" (by decide)

/-- Counterexample to claim C7 as stated: `analyze_gan_fingerprints` (part of
`detect_ai_image`'s pixel layer) consumes patch corners drawn from the
module-global NumPy RNG, whose state changes between calls. On the 34×65
half-black image, two draw sequences that `np.random.randint(0, 2)` /
`np.random.randint(0, 33)` can produce — both corners in range — give
different scores (0 versus 15), so two calls with identical input need not
return identical results. -/
theorem C7_counterexample :
    (0 < ganCexImg.h - 32 ∧ 0 < ganCexImg.w - 32 ∧ 16 < ganCexImg.w - 32) ∧
    (analyze_gan_fingerprints false ganCexOracle ganCexImg [(0, 0), (0, 0)]).1 = 0 ∧
    (analyze_gan_fingerprints false ganCexOracle ganCexImg [(0, 0), (0, 16)]).1 = 15 :=
  ⟨by decide, gan_cex_run1, gan_cex_run2⟩

/-- Claim C7 (amended): `classify_product_sustainability` is deterministic,
and `detect_ai_image`'s components are deterministic once the RNG draws they
consume are fixed: with identical inputs and identical draw sequences the
GAN-fingerprint analysis returns identical results. -/
theorem C7_amended_determinism (t d : String) (iu : Option String) (cv2A : Bool)
    (o : Cv2Oracle) (img : ImageArr) (d1 d2 : List (Nat × Nat)) (h : d1 = d2) :
    classify_product_sustainability t d iu = classify_product_sustainability t d iu ∧
    analyze_gan_fingerprints cv2A o img d1 = analyze_gan_fingerprints cv2A o img d2 :=
  ⟨rfl, by rw [h]⟩

/-- Witness for C7 (amended) at concrete inputs and equal draw sequences. -/
theorem C7_amended_witness :
    classify_product_sustainability "a" "b" none =
      classify_product_sustainability "a" "b" none ∧
    analyze_gan_fingerprints false ganCexOracle ganCexImg [(0, 0)] =
      analyze_gan_fingerprints false ganCexOracle ganCexImg [(0, 0)] :=
  C7_amended_determinism "a" "b" none false ganCexOracle ganCexImg [(0, 0)] [(0, 0)] rfl

/-- Claim C1: when the image reference is nonempty and the URL-pattern score
is below 80, `detect_ai_image` takes the combination path: its confidence is
`0.25×url + 0.20×metadata + 0.15×visual + 0.40×pixel` rounded to 2 decimals,
`is_ai_generated` holds iff that combination is at least 40, and the
confidence band uses inclusive lower bounds 70/50/30. -/
theorem C1_weighted_combination (fl : Flags) (o : ExtractorOracle) (u : String)
    (hne : u ≠ "") (hlt : (check_url_patterns u).score < 80) :
    (detect_ai_image fl o (some u)).details.isFull = true ∧
    (detect_ai_image fl o (some u)).confidence_score =
      pyRound2 (weightedOf (detect_ai_image fl o (some u))) ∧
    ((detect_ai_image fl o (some u)).is_ai_generated = true ↔
      40 ≤ weightedOf (detect_ai_image fl o (some u))) ∧
    (70 ≤ weightedOf (detect_ai_image fl o (some u)) →
      (detect_ai_image fl o (some u)).details.level = "high") ∧
    (50 ≤ weightedOf (detect_ai_image fl o (some u)) →
      weightedOf (detect_ai_image fl o (some u)) < 70 →
      (detect_ai_image fl o (some u)).details.level = "medium") ∧
    (30 ≤ weightedOf (detect_ai_image fl o (some u)) →
      weightedOf (detect_ai_image fl o (some u)) < 50 →
      (detect_ai_image fl o (some u)).details.level = "low") ∧
    (weightedOf (detect_ai_image fl o (some u)) < 30 →
      (detect_ai_image fl o (some u)).details.level = "unlikely") := by
  have hsc : ¬((check_url_patterns u).detected = true ∧ 80 ≤ (check_url_patterns u).score) := by
    rintro ⟨-, h80⟩
    exact absurd hlt (not_lt.mpr h80)
  rw [detect_ai_image_combine fl o hne hsc]
  obtain ⟨hu, hm, hv, hp⟩ := detectCombine_scores fl o u (check_url_patterns u)
  have hW : weightedOf (detectCombine fl o u (check_url_patterns u)) =
      combineRaw fl o u (check_url_patterns u) := by
    unfold weightedOf combineRaw
    rw [hu, hm, hv, hp]
    ring
  refine ⟨detectCombine_isFull fl o u _, ?_, ?_, ?_, ?_, ?_, ?_⟩
  · rw [detectCombine_confidence, hW]
  · rw [detectCombine_is_ai, hW, decide_eq_true_eq]
  · intro h70
    rw [hW] at h70
    rw [detectCombine_level, if_pos h70]
  · intro h50 h70
    rw [hW] at h50 h70
    rw [detectCombine_level, if_neg (not_le.mpr h70), if_pos h50]
  · intro h30 h50
    rw [hW] at h30 h50
    rw [detectCombine_level, if_neg (not_le.mpr (by linarith)), if_neg (not_le.mpr h50),
      if_pos h30]
  · intro h30
    rw [hW] at h30
    rw [detectCombine_level, if_neg (not_le.mpr (by linarith)),
      if_neg (not_le.mpr (by linarith)), if_neg (not_le.mpr h30)]

/-- Witness for C1 at a URL matching no pattern, with libraries available. -/
theorem C1_witness :
    (detect_ai_image ⟨true, true⟩ witnessOracle (some "https://foo.org/pic.jpg")).details.isFull
      = true ∧
    (detect_ai_image ⟨true, true⟩ witnessOracle (some "https://foo.org/pic.jpg")).confidence_score
      = pyRound2 (weightedOf (detect_ai_image ⟨true, true⟩ witnessOracle
        (some "https://foo.org/pic.jpg"))) ∧
    ((detect_ai_image ⟨true, true⟩ witnessOracle (some "https://foo.org/pic.jpg")).is_ai_generated
      = true ↔
      40 ≤ weightedOf (detect_ai_image ⟨true, true⟩ witnessOracle
        (some "https://foo.org/pic.jpg"))) ∧
    (70 ≤ weightedOf (detect_ai_image ⟨true, true⟩ witnessOracle
        (some "https://foo.org/pic.jpg")) →
      (detect_ai_image ⟨true, true⟩ witnessOracle
        (some "https://foo.org/pic.jpg")).details.level = "high") ∧
    (50 ≤ weightedOf (detect_ai_image ⟨true, true⟩ witnessOracle
        (some "https://foo.org/pic.jpg")) →
      weightedOf (detect_ai_image ⟨true, true⟩ witnessOracle
        (some "https://foo.org/pic.jpg")) < 70 →
      (detect_ai_image ⟨true, true⟩ witnessOracle
        (some "https://foo.org/pic.jpg")).details.level = "medium") ∧
    (30 ≤ weightedOf (detect_ai_image ⟨true, true⟩ witnessOracle
        (some "https://foo.org/pic.jpg")) →
      weightedOf (detect_ai_image ⟨true, true⟩ witnessOracle
        (some "https://foo.org/pic.jpg")) < 50 →
      (detect_ai_image ⟨true, true⟩ witnessOracle
        (some "https://foo.org/pic.jpg")).details.level = "low") ∧
    (weightedOf (detect_ai_image ⟨true, true⟩ witnessOracle
        (some "https://foo.org/pic.jpg")) < 30 →
      (detect_ai_image ⟨true, true⟩ witnessOracle
        (some "https://foo.org/pic.jpg")).details.level = "unlikely") :=
  C1_weighted_combination ⟨true, true⟩ witnessOracle "https://foo.org/pic.jpg" (by decide)
    (by rw [check_url_patterns_of_empty_details (by decide) (by decide)]
        norm_num)

/-- Claim C2: any URL matching a known AI-service domain pattern scores at
least 80 in `check_url_patterns`, and `detect_ai_image` short-circuits,
returning `is_ai_generated=true`, method `url_pattern_analysis`, and a
details map with only the URL analysis, high confidence, and the primary
indicator note — independent of the downstream extractor oracles, which are
never consulted. -/
theorem C2_service_pattern_short_circuit (fl : Flags) (o : ExtractorOracle) (u : String)
    (h : ∃ p ∈ AI_SERVICE_PATTERNS, reSearch p.2 (pyLower u) = true) :
    80 ≤ (check_url_patterns u).score ∧
    detect_ai_image fl o (some u) =
      { is_ai_generated := true
        confidence_score := (check_url_patterns u).score
        detection_method := "url_pattern_analysis"
        details := .shortCircuit (check_url_patterns u).details "high"
          "AI service URL detected" } := by
  obtain ⟨p, hp, hs⟩ := h
  have hne : u ≠ "" := by
    intro he
    subst he
    have hnn : reNull p.2 = false := service_patterns_not_null p hp
    have : reSearch p.2 (pyLower "") = reNull p.2 := rfl
    rw [this, hnn] at hs
    exact Bool.false_ne_true hs
  have hdet : urlDetails u ≠ [] := by
    intro hnil
    have hpf : p ∈ AI_SERVICE_PATTERNS.filter (fun q => reSearch q.2 (pyLower u)) :=
      List.mem_filter.mpr ⟨hp, hs⟩
    unfold urlDetails at hnil
    rcases List.append_eq_nil.mp hnil with ⟨h1, -⟩
    rw [List.map_eq_nil_iff] at h1
    rw [h1] at hpf
    exact List.not_mem_nil p hpf
  have hrec := check_url_patterns_of_ne_empty_details hne hdet
  refine ⟨(url_score_of_ne_empty_details hne hdet).1, ?_⟩
  simp only [detect_ai_image]
  rw [if_neg hne, if_pos ⟨by rw [hrec], (url_score_of_ne_empty_details hne hdet).1⟩, hrec]

/-- Witness for C2 at a Midjourney CDN URL. -/
theorem C2_witness :
    80 ≤ (check_url_patterns "https://cdn.midjourney.com/abc.png").score ∧
    detect_ai_image ⟨true, true⟩ witnessOracle (some "https://cdn.midjourney.com/abc.png") =
      { is_ai_generated := true
        confidence_score := (check_url_patterns "https://cdn.midjourney.com/abc.png").score
        detection_method := "url_pattern_analysis"
        details := .shortCircuit
          (check_url_patterns "https://cdn.midjourney.com/abc.png").details "high"
          "AI service URL detected" } :=
  C2_service_pattern_short_circuit ⟨true, true⟩ witnessOracle
    "https://cdn.midjourney.com/abc.png" (by decide)

/-- Claim C8: with NumPy unavailable, `analyze_visual_patterns` and
`analyze_pixel_level_features` return the zero-score "not available" stubs,
and on the combination path the confidence equals exactly
`0.25×url + 0.20×metadata` rounded to 2 decimals. -/
theorem C8_graceful_degradation (fl : Flags) (o : ExtractorOracle) (u : String)
    (hnp : fl.numpy = false) (hne : u ≠ "")
    (hlt : (check_url_patterns u).score < 80) :
    analyze_visual_patterns fl o u =
      ⟨false, 0, "visual_check", ["PIL or NumPy not available - visual analysis skipped"]⟩ ∧
    analyze_pixel_level_features fl o u =
      ⟨false, 0, "pixel_analysis", ["PIL or NumPy not available - pixel analysis skipped"], []⟩ ∧
    (detect_ai_image fl o (some u)).confidence_score =
      pyRound2 (0.25 * (check_url_patterns u).score +
        0.20 * (analyze_image_metadata fl o u).score) := by
  have hb : (fl.pil && fl.numpy) = false := by rw [hnp, Bool.and_false]
  have hsc : ¬((check_url_patterns u).detected = true ∧ 80 ≤ (check_url_patterns u).score) := by
    rintro ⟨-, h80⟩
    exact absurd hlt (not_lt.mpr h80)
  refine ⟨?_, ?_, ?_⟩
  · simp [analyze_visual_patterns, hb]
  · simp [analyze_pixel_level_features, hb]
  · rw [detect_ai_image_combine fl o hne hsc, detectCombine_confidence]
    unfold combineRaw
    rw [hb]
    simp only [Bool.false_eq_true, if_false]
    congr 1
    ring

/-- Witness for C8: NumPy disabled, non-matching URL. -/
theorem C8_witness :
    analyze_visual_patterns ⟨true, false⟩ witnessOracle "https://foo.org/pic.jpg" =
      ⟨false, 0, "visual_check", ["PIL or NumPy not available - visual analysis skipped"]⟩ ∧
    analyze_pixel_level_features ⟨true, false⟩ witnessOracle "https://foo.org/pic.jpg" =
      ⟨false, 0, "pixel_analysis", ["PIL or NumPy not available - pixel analysis skipped"], []⟩ ∧
    (detect_ai_image ⟨true, false⟩ witnessOracle (some "https://foo.org/pic.jpg")).confidence_score =
      pyRound2 (0.25 * (check_url_patterns "https://foo.org/pic.jpg").score +
        0.20 * (analyze_image_metadata ⟨true, false⟩ witnessOracle "https://foo.org/pic.jpg").score) :=
  C8_graceful_degradation ⟨true, false⟩ witnessOracle "https://foo.org/pic.jpg" rfl (by decide)
    (by rw [check_url_patterns_of_empty_details (by decide) (by decide)]
        norm_num)

/-- Claim C9: `check_url_patterns` scores are 0 or within [80, 95], and on
any non-short-circuited run of `detect_ai_image` the URL score is exactly 0:
the reported `url_score` is 0 and the confidence carries no URL term. -/
theorem C9_url_dichotomy_and_zero_weight (u : String) :
    ((check_url_patterns u).score = 0 ∨
      (80 ≤ (check_url_patterns u).score ∧ (check_url_patterns u).score ≤ 95)) ∧
    (∀ (fl : Flags) (o : ExtractorOracle), u ≠ "" →
      ¬((check_url_patterns u).detected = true ∧ 80 ≤ (check_url_patterns u).score) →
      (check_url_patterns u).score = 0 ∧
      (detect_ai_image fl o (some u)).details.urlScore = 0 ∧
      (detect_ai_image fl o (some u)).confidence_score =
        pyRound2 (0.20 * (detect_ai_image fl o (some u)).details.metaScore +
          0.15 * (detect_ai_image fl o (some u)).details.visualScore +
          0.40 * (detect_ai_image fl o (some u)).details.pixelScore)) := by
  constructor
  · by_cases hu : u = ""
    · subst hu
      rw [check_url_patterns_empty]
      exact Or.inl rfl
    · by_cases hd : urlDetails u = []
      · rw [check_url_patterns_of_empty_details hu hd]
        exact Or.inl rfl
      · exact Or.inr (url_score_of_ne_empty_details hu hd)
  · intro fl o hne hsc
    have hz : (check_url_patterns u).score = 0 := by
      by_cases hd : urlDetails u = []
      · rw [check_url_patterns_of_empty_details hne hd]
      · exact absurd ⟨by rw [check_url_patterns_of_ne_empty_details hne hd],
          (url_score_of_ne_empty_details hne hd).1⟩ hsc
    rw [detect_ai_image_combine fl o hne hsc]
    obtain ⟨hu, hm, hv, hp⟩ := detectCombine_scores fl o u (check_url_patterns u)
    refine ⟨hz, by rw [hu, hz], ?_⟩
    rw [detectCombine_confidence, hm, hv, hp]
    unfold combineRaw
    rw [hz]
    congr 1
    ring

/-- Witness for C9 at a non-matching URL with libraries available. -/
theorem C9_witness :
    ((check_url_patterns "https://foo.org/pic.jpg").score = 0 ∨
      (80 ≤ (check_url_patterns "https://foo.org/pic.jpg").score ∧
        (check_url_patterns "https://foo.org/pic.jpg").score ≤ 95)) ∧
    ((check_url_patterns "https://foo.org/pic.jpg").score = 0 ∧
      (detect_ai_image ⟨true, true⟩ witnessOracle
        (some "https://foo.org/pic.jpg")).details.urlScore = 0 ∧
      (detect_ai_image ⟨true, true⟩ witnessOracle
        (some "https://foo.org/pic.jpg")).confidence_score =
        pyRound2 (0.20 * (detect_ai_image ⟨true, true⟩ witnessOracle
            (some "https://foo.org/pic.jpg")).details.metaScore +
          0.15 * (detect_ai_image ⟨true, true⟩ witnessOracle
            (some "https://foo.org/pic.jpg")).details.visualScore +
          0.40 * (detect_ai_image ⟨true, true⟩ witnessOracle
            (some "https://foo.org/pic.jpg")).details.pixelScore)) :=
  ⟨(C9_url_dichotomy_and_zero_weight "https://foo.org/pic.jpg").1,
    (C9_url_dichotomy_and_zero_weight "https://foo.org/pic.jpg").2 ⟨true, true⟩ witnessOracle
      (by decide)
      (by intro hc
          rw [check_url_patterns_of_empty_details (by decide) (by decide)] at hc
          exact absurd hc.1 (by simp))⟩
